import Mathlib

/-!
Shallow embedding of the book-catalog server (`src/server.js`).

The embedding models the core state (the `books` array and the
`currentId` allocator), the request handlers for `POST /book`,
`GET /books`, `GET /books/total`, `GET /book`, `PUT /book`,
`DELETE /book`, the `filterBooks` utility, and the log-level registry
behind `GET /logs/level` and `PUT /logs/level`.

Modelling conventions:
* JavaScript numbers carried in book records (`price`) are modelled as
  rationals `ℚ`; `year` and parsed bounds are integers.
* Query-string parameters are `Option String` (absent or a string); a
  parameter is "truthy" exactly when it is present and non-empty,
  mirroring `if (param) { ... }` in the handlers.
* `parseInt` applied to a string is modelled by `parseIntStr`, returning
  `none` for `NaN` (sign and leading whitespace handled, the hexadecimal
  `0x` prefix form is not modelled); a numeric comparison against `NaN`
  is `false` on both sides, mirrored by the `*NaN*` comparison helpers.
* `parseInt` applied to a number (as in `book.price = parseInt(price)`)
  renders it in decimal notation and truncates toward zero, modelled by
  `parseIntNum` (exponent-notation corner cases are out of scope).
* `lowerStr`/`upperStr` model `toLowerCase`/`toUpperCase` on the ASCII
  range used by the server's constants; `splitComma` models
  `String.prototype.split(",")`.
* The comparator `a.title.toLowerCase().localeCompare(b.title.toLowerCase())`
  is modelled as code-point lexicographic order on the lowered titles,
  and the stable `Array.prototype.sort` as a stable insertion sort.
* Array aliasing: `filterBooks` returns the global `books` array itself
  exactly when no filter branch ran; the in-place `sort` in the
  `GET /books` handler then reorders the global array.  `getBooks`
  reflects this by updating the stored list exactly in that case.
-/

deriving instance DecidableEq for Except

namespace BookServer

/-- JS `toLowerCase` (ASCII range). -/
def lowerStr (s : String) : String := ⟨s.data.map Char.toLower⟩

/-- JS `toUpperCase` (ASCII range). -/
def upperStr (s : String) : String := ⟨s.data.map Char.toUpper⟩

/-- JS `split(",")` on the underlying character list. -/
def splitCommaAux : List Char → List Char → List String
  | [], acc => [⟨acc.reverse⟩]
  | c :: rest, acc =>
    if c = ',' then ⟨acc.reverse⟩ :: splitCommaAux rest []
    else splitCommaAux rest (c :: acc)

def splitComma (s : String) : List String := splitCommaAux s.data []

/-- JS `parseInt` on a string: skip leading whitespace, optional sign,
read leading decimal digits; `none` models `NaN`. -/
def parseDigits (cs : List Char) : Option Nat :=
  let ds := cs.takeWhile Char.isDigit
  if ds.isEmpty then none
  else some (ds.foldl (fun a c => a * 10 + (c.toNat - 48)) 0)

def parseIntStr (s : String) : Option Int :=
  match s.data.dropWhile Char.isWhitespace with
  | '-' :: rest => (parseDigits rest).map (fun n => -(n : Int))
  | '+' :: rest => (parseDigits rest).map (fun n => (n : Int))
  | cs => (parseDigits cs).map (fun n => (n : Int))

/-- JS `parseInt` on a number rendered in decimal notation: truncation
toward zero.  For a rational `q` in lowest terms this is `q.num.tdiv q.den`. -/
def parseIntNum (q : ℚ) : Int := q.num.tdiv (q.den : Int)

/-- A stored book record (the objects pushed onto the `books` array). -/
structure Book where
  id : Nat
  title : String
  author : String
  year : Int
  price : ℚ
  genres : List String
deriving DecidableEq

/-- The server's mutable core state: the `books` array (insertion
order) and the `currentId` allocator. -/
structure Store where
  books : List Book
  currentId : Nat
deriving DecidableEq

/-- Initial state: `let books = []; let currentId = 1;`. -/
def emptyStore : Store := { books := [], currentId := 1 }

def validGenres : List String :=
  ["SCI_FI", "NOVEL", "HISTORY", "MANGA", "ROMANCE", "PROFESSIONAL"]

/-- The typed error taxonomy of the handlers (each constructor is one
early-return error path of `server.js`). -/
inductive Err where
  | duplicateTitle : Err
  | invalidYear : Err
  | invalidPrice : Err
  | notFound : Err
  | invalidGenre : Err
deriving DecidableEq

/-- Handler `POST /book`: duplicate-title check, then year-range check, then
price check, then allocate `currentId++` and push the record.  Note the
handler performs no validation of `genres` at all. -/
def createBook (s : Store) (title author : String) (year : Int)
    (price : ℚ) (genres : List String) : Except Err Nat × Store :=
  if s.books.any (fun b => lowerStr b.title == lowerStr title) then
    (.error .duplicateTitle, s)
  else if year < 1940 || year > 2100 then
    (.error .invalidYear, s)
  else if price ≤ 0 then
    (.error .invalidPrice, s)
  else
    let newBook : Book :=
      { id := s.currentId, title := title, author := author,
        year := year, price := price, genres := genres }
    (.ok newBook.id,
      { books := s.books ++ [newBook], currentId := s.currentId + 1 })

/-- Handler `GET /book`: find by id, 404 when absent. -/
def getBook (s : Store) (id : Nat) : Except Err Book :=
  match s.books.find? (fun b => b.id == id) with
  | none => .error .notFound
  | some b => .ok b

/-- Mutate the first record with the given id (JS mutates the object
returned by `books.find`). -/
def setPriceFirst (id : Nat) (p : ℚ) : List Book → List Book
  | [] => []
  | b :: rest =>
    if b.id == id then { b with price := p } :: rest
    else b :: setPriceFirst id p rest

/-- Handler `PUT /book`: find by id (404 when absent), reject `price ≤ 0`,
then store `parseInt(price)` and return the previous price. -/
def updatePrice (s : Store) (id : Nat) (price : ℚ) :
    Except Err ℚ × Store :=
  match s.books.find? (fun b => b.id == id) with
  | none => (.error .notFound, s)
  | some book =>
    if price ≤ 0 then (.error .invalidPrice, s)
    else
      (.ok book.price,
        { s with books := setPriceFirst id ((parseIntNum price : Int) : ℚ) s.books })

/-- Handler `DELETE /book`: find index by id (404 when absent), splice it out,
return the new length. -/
def deleteBook (s : Store) (id : Nat) : Except Err Nat × Store :=
  match s.books.findIdx? (fun b => b.id == id) with
  | none => (.error .notFound, s)
  | some i =>
    let newBooks := s.books.eraseIdx i
    (.ok newBooks.length, { s with books := newBooks })

/-- The destructured `req.query` of the filter endpoints. -/
structure Query where
  author : Option String := none
  priceBiggerThan : Option String := none
  priceLessThan : Option String := none
  yearBiggerThan : Option String := none
  yearLessThan : Option String := none
  genres : Option String := none
deriving DecidableEq

/-- JS truthiness of a query-string value: present and non-empty. -/
def truthy : Option String → Bool
  | none => false
  | some s => !(s == "")

/-- Comparison `book.price >= parseInt(bound)`: `false` when the bound is `NaN`. -/
def geNaNQ (x : ℚ) (y : Option Int) : Bool :=
  match y with
  | none => false
  | some n => decide ((n : ℚ) ≤ x)

/-- Comparison `book.price <= parseInt(bound)`: `false` when the bound is `NaN`. -/
def leNaNQ (x : ℚ) (y : Option Int) : Bool :=
  match y with
  | none => false
  | some n => decide (x ≤ (n : ℚ))

/-- Comparison `book.year >= parseInt(bound)`: `false` when the bound is `NaN`. -/
def geNaNZ (x : Int) (y : Option Int) : Bool :=
  match y with
  | none => false
  | some n => decide (n ≤ x)

/-- Comparison `book.year <= parseInt(bound)`: `false` when the bound is `NaN`. -/
def leNaNZ (x : Int) (y : Option Int) : Bool :=
  match y with
  | none => false
  | some n => decide (x ≤ n)

/-- One `if (param) { filteredBooks = filteredBooks.filter(...) }`
step of `filterBooks`. -/
def applyIf (o : Option String) (p : String → Book → Bool)
    (l : List Book) : List Book :=
  match o with
  | none => l
  | some s => if s = "" then l else l.filter (p s)

/-- The author and the four numeric-bound filter steps of
`filterBooks`, in source order. -/
def filterRest (l : List Book) (q : Query) : List Book :=
  let l1 := applyIf q.author (fun a b => lowerStr b.author == lowerStr a) l
  let l2 := applyIf q.priceBiggerThan (fun s b => geNaNQ b.price (parseIntStr s)) l1
  let l3 := applyIf q.priceLessThan (fun s b => leNaNQ b.price (parseIntStr s)) l2
  let l4 := applyIf q.yearBiggerThan (fun s b => geNaNZ b.year (parseIntStr s)) l3
  applyIf q.yearLessThan (fun s b => leNaNZ b.year (parseIntStr s)) l4

/-- Utility `filterBooks(query)`: the genres step may throw
`Error("Invalid genre value")`; the remaining steps never fail. -/
def filterBooks (books : List Book) (q : Query) : Except Err (List Book) :=
  match q.genres with
  | none => .ok (filterRest books q)
  | some g =>
    if g = "" then .ok (filterRest books q)
    else
      let genreList := splitComma g
      if genreList.all (fun t => validGenres.contains t) then
        .ok (filterRest
          (books.filter (fun b => b.genres.any (fun t => genreList.contains t))) q)
      else .error .invalidGenre

/-- No filter branch of `filterBooks` runs, so the returned list is the
global `books` array itself (aliasing). -/
def noCriterion (q : Query) : Bool :=
  !truthy q.genres && !truthy q.author && !truthy q.priceBiggerThan &&
  !truthy q.priceLessThan && !truthy q.yearBiggerThan && !truthy q.yearLessThan

/-- Code-point lexicographic order on character lists; the model of a
non-positive `localeCompare` result. -/
def charListLe : List Char → List Char → Bool
  | [], _ => true
  | _ :: _, [] => false
  | a :: as, b :: bs =>
    if a.toNat < b.toNat then true
    else if b.toNat < a.toNat then false
    else charListLe as bs

/-- The comparator of the `GET /books` handler:
`a.title.toLowerCase().localeCompare(b.title.toLowerCase()) <= 0`. -/
def titleLeP (a b : Book) : Prop :=
  charListLe (lowerStr a.title).data (lowerStr b.title).data = true

instance : DecidableRel titleLeP := fun a b =>
  inferInstanceAs (Decidable (charListLe (lowerStr a.title).data (lowerStr b.title).data = true))

/-- The in-place stable sort of the `GET /books` handler. -/
def sortBooks (l : List Book) : List Book := l.insertionSort titleLeP

/-- The public projection built by the `GET /books` handler. -/
structure BookView where
  id : Nat
  title : String
  author : String
  price : ℚ
  year : Int
  genres : List String
deriving DecidableEq

def view (b : Book) : BookView :=
  { id := b.id, title := b.title, author := b.author,
    price := b.price, year := b.year, genres := b.genres }

/-- Handler `GET /books`: filter, sort in place, project.  When no filter
branch ran, the sorted array is the global `books` array itself, so the
store's insertion order is overwritten by the sort. -/
def getBooks (s : Store) (q : Query) :
    Except Err (List BookView) × Store :=
  match filterBooks s.books q with
  | .error e => (.error e, s)
  | .ok l =>
    let sorted := sortBooks l
    (.ok (sorted.map view),
      if noCriterion q then { s with books := sorted } else s)

/-- Handler `GET /books/total`: filter and return the length; no sort, so the
store is never touched. -/
def getBooksTotal (s : Store) (q : Query) : Except Err Nat × Store :=
  match filterBooks s.books q with
  | .error e => (.error e, s)
  | .ok l => (.ok l.length, s)

/-! ### Log-level registry (`GET /logs/level`, `PUT /logs/level`) -/

inductive LogErr where
  | unknownChannel : LogErr
  | invalidSeverity : LogErr
deriving DecidableEq

/-- The two winston logger levels, both initialized to `"info"`. -/
structure LogState where
  requestLevel : String
  booksLevel : String
deriving DecidableEq

def initLogState : LogState := { requestLevel := "info", booksLevel := "info" }

def validLevels : List String := ["error", "warn", "info", "http", "debug"]

/-- Handler `GET /logs/level`: resolve the logger by exact name, answer the
current level uppercased; the state is read, never written. -/
def getLevel (st : LogState) (name : String) : Except LogErr String :=
  if name = "request-logger" then .ok (upperStr st.requestLevel)
  else if name = "books-logger" then .ok (upperStr st.booksLevel)
  else .error .unknownChannel

/-- Handler `PUT /logs/level`: resolve the logger by exact name, validate the
level case-insensitively, store it lowercased, answer it uppercased. -/
def setLevel (st : LogState) (name level : String) :
    Except LogErr String × LogState :=
  if name = "request-logger" then
    if validLevels.contains (lowerStr level) then
      (.ok (upperStr (lowerStr level)), { st with requestLevel := lowerStr level })
    else (.error .invalidSeverity, st)
  else if name = "books-logger" then
    if validLevels.contains (lowerStr level) then
      (.ok (upperStr (lowerStr level)), { st with booksLevel := lowerStr level })
    else (.error .invalidSeverity, st)
  else (.error .unknownChannel, st)

/-! ### Operation sequences over the store -/

/-- One inbound store operation (the book endpoints). -/
inductive Op where
  | create (title author : String) (year : Int) (price : ℚ) (genres : List String) : Op
  | update (id : Nat) (price : ℚ) : Op
  | del (id : Nat) : Op
  | listq (q : Query) : Op
  | totalq (q : Query) : Op

def exceptOk : Except Err α → Bool
  | .ok _ => true
  | .error _ => false

/-- The state reached after one operation. -/
def applyOp (s : Store) : Op → Store
  | .create t a y p g => (createBook s t a y p g).2
  | .update id p => (updatePrice s id p).2
  | .del id => (deleteBook s id).2
  | .listq q => (getBooks s q).2
  | .totalq q => (getBooksTotal s q).2

def applyOps (s : Store) (ops : List Op) : Store := ops.foldl applyOp s

/-- Whether an operation is a `create` that succeeds at the state where
it runs. -/
def createSucceeded (s : Store) : Op → Bool
  | .create t a y p g => exceptOk (createBook s t a y p g).1
  | _ => false

/-- Whether some operation along the trace is a successful `create`. -/
def anySuccessfulCreate (s : Store) : List Op → Bool
  | [] => false
  | o :: rest => createSucceeded s o || anySuccessfulCreate (applyOp s o) rest

/-! ### Pointwise readings of the filter criteria -/

/-- The guard of one `applyIf` step, read pointwise at one book. -/
def guardOpt (o : Option String) (p : String → Book → Bool) (b : Book) : Bool :=
  match o with
  | none => true
  | some s => if s = "" then true else p s b

/-- Pointwise reading of the author and numeric-bound criteria of
`filterRest`. -/
def matchesRest (q : Query) (b : Book) : Bool :=
  guardOpt q.author (fun a x => lowerStr x.author == lowerStr a) b &&
  guardOpt q.priceBiggerThan (fun s x => geNaNQ x.price (parseIntStr s)) b &&
  guardOpt q.priceLessThan (fun s x => leNaNQ x.price (parseIntStr s)) b &&
  guardOpt q.yearBiggerThan (fun s x => geNaNZ x.year (parseIntStr s)) b &&
  guardOpt q.yearLessThan (fun s x => leNaNZ x.year (parseIntStr s)) b

/-- Some numeric bound is present, non-empty, and parses to `NaN`. -/
def hasMalformedBound (q : Query) : Prop :=
  (∃ s, q.priceBiggerThan = some s ∧ s ≠ "" ∧ parseIntStr s = none) ∨
  (∃ s, q.priceLessThan = some s ∧ s ≠ "" ∧ parseIntStr s = none) ∨
  (∃ s, q.yearBiggerThan = some s ∧ s ≠ "" ∧ parseIntStr s = none) ∨
  (∃ s, q.yearLessThan = some s ∧ s ≠ "" ∧ parseIntStr s = none)

/-- The genres criterion does not reject: absent, empty, or all tags
valid. -/
def genresAccepted (q : Query) : Prop :=
  ∀ g, q.genres = some g → g ≠ "" →
    (splitComma g).all (fun t => validGenres.contains t) = true

/-! ### Basic lemmas about the comparator -/

theorem charListLe_total : ∀ x y : List Char, charListLe x y = true ∨ charListLe y x = true := by
  intro x
  induction x with
  | nil => intro y; left; rfl
  | cons a as ih =>
    intro y
    cases y with
    | nil => right; rfl
    | cons b bs =>
      simp only [charListLe]
      rcases ih bs with h | h <;> split_ifs <;> simp [h]

theorem charListLe_trans : ∀ x y z : List Char,
    charListLe x y = true → charListLe y z = true → charListLe x z = true := by
  intro x
  induction x with
  | nil => intro y z _ _; rfl
  | cons a as ih =>
    intro y z hxy hyz
    cases y with
    | nil => simp [charListLe] at hxy
    | cons b bs =>
      cases z with
      | nil => simp [charListLe] at hyz
      | cons c cs =>
        simp only [charListLe] at hxy hyz ⊢
        split_ifs at hxy hyz ⊢ <;>
          first
          | rfl
          | omega
          | exact ih bs cs hxy hyz

instance : IsTrans Book titleLeP :=
  ⟨fun _ _ _ hab hbc => charListLe_trans _ _ _ hab hbc⟩

instance : IsTotal Book titleLeP :=
  ⟨fun a b => charListLe_total (lowerStr a.title).data (lowerStr b.title).data⟩

/-! ### Frame lemmas for the error paths -/

theorem createBook_error_frame (s : Store) (t a : String) (y : Int) (p : ℚ)
    (g : List String) (e : Err) (h : (createBook s t a y p g).1 = .error e) :
    (createBook s t a y p g).2 = s := by
  simp only [createBook] at h ⊢
  split_ifs at h ⊢ <;> simp_all

theorem updatePrice_error_frame (s : Store) (id : Nat) (p : ℚ) (e : Err)
    (h : (updatePrice s id p).1 = .error e) : (updatePrice s id p).2 = s := by
  simp only [updatePrice] at h ⊢
  cases hf : s.books.find? (fun b => b.id == id)
  · rfl
  · dsimp only at h ⊢
    split_ifs at h ⊢ <;> simp_all

theorem deleteBook_error_frame (s : Store) (id : Nat) (e : Err)
    (h : (deleteBook s id).1 = .error e) : (deleteBook s id).2 = s := by
  simp only [deleteBook] at h ⊢
  cases hf : s.books.findIdx? (fun b => b.id == id)
  · rfl
  · simp_all

theorem createBook_not_ok_frame (s : Store) (t a : String) (y : Int) (p : ℚ)
    (g : List String) (h : exceptOk (createBook s t a y p g).1 = false) :
    (createBook s t a y p g).2 = s := by
  simp only [createBook] at h ⊢
  split_ifs at h ⊢ <;> simp_all [exceptOk]

/-! ### The id allocator is only advanced by a successful create -/

theorem createBook_ok_id (s : Store) (t a : String) (y : Int) (p : ℚ)
    (g : List String) (n : Nat) (h : (createBook s t a y p g).1 = .ok n) :
    n = s.currentId ∧ (createBook s t a y p g).2.currentId = s.currentId + 1 := by
  simp only [createBook] at h ⊢
  split_ifs at h ⊢
  all_goals simp_all

theorem updatePrice_currentId (s : Store) (id : Nat) (p : ℚ) :
    (updatePrice s id p).2.currentId = s.currentId := by
  simp only [updatePrice]
  cases hf : s.books.find? (fun b => b.id == id)
  · rfl
  · split_ifs <;> rfl

theorem deleteBook_currentId (s : Store) (id : Nat) :
    (deleteBook s id).2.currentId = s.currentId := by
  simp only [deleteBook]
  cases hf : s.books.findIdx? (fun b => b.id == id) <;> rfl

theorem getBooksTotal_frame (s : Store) (q : Query) : (getBooksTotal s q).2 = s := by
  simp only [getBooksTotal]
  cases hf : filterBooks s.books q
  · rfl
  · rfl

theorem getBooks_currentId (s : Store) (q : Query) :
    (getBooks s q).2.currentId = s.currentId := by
  simp only [getBooks]
  cases hf : filterBooks s.books q
  · rfl
  · dsimp only
    split_ifs <;> rfl

theorem applyOp_currentId (s : Store) (o : Op)
    (h : createSucceeded s o = false) : (applyOp s o).currentId = s.currentId := by
  cases o with
  | create t a y p g =>
    simp only [applyOp]
    rw [createBook_not_ok_frame s t a y p g h]
  | update id p => exact updatePrice_currentId s id p
  | del id => exact deleteBook_currentId s id
  | listq q => exact getBooks_currentId s q
  | totalq q => rw [applyOp, getBooksTotal_frame]

theorem applyOps_currentId : ∀ (ops : List Op) (s : Store),
    anySuccessfulCreate s ops = false → (applyOps s ops).currentId = s.currentId := by
  intro ops
  induction ops with
  | nil => intro s _; rfl
  | cons o rest ih =>
    intro s h
    simp only [anySuccessfulCreate, Bool.or_eq_false_iff] at h
    show (applyOps (applyOp s o) rest).currentId = s.currentId
    rw [ih (applyOp s o) h.2, applyOp_currentId s o h.1]

/-! ### Query-engine lemmas -/

theorem applyIf_of_not_truthy (o : Option String) (p : String → Book → Bool)
    (l : List Book) (h : truthy o = false) : applyIf o p l = l := by
  cases o with
  | none => rfl
  | some s =>
    have hs : s = "" := by simpa [truthy] using h
    simp [applyIf, hs]

theorem applyIf_nil (o : Option String) (p : String → Book → Bool) :
    applyIf o p [] = [] := by
  cases o with
  | none => rfl
  | some s =>
    simp only [applyIf]
    split_ifs <;> rfl

theorem noCriterion_spec (q : Query) (h : noCriterion q = true) :
    truthy q.genres = false ∧ truthy q.author = false ∧
    truthy q.priceBiggerThan = false ∧ truthy q.priceLessThan = false ∧
    truthy q.yearBiggerThan = false ∧ truthy q.yearLessThan = false := by
  simp only [noCriterion, Bool.and_eq_true, Bool.not_eq_true'] at h
  tauto

theorem filterRest_of_noCriterion (l : List Book) (q : Query)
    (h : noCriterion q = true) : filterRest l q = l := by
  obtain ⟨_, h2, h3, h4, h5, h6⟩ := noCriterion_spec q h
  simp only [filterRest]
  rw [applyIf_of_not_truthy _ _ _ h2, applyIf_of_not_truthy _ _ _ h3,
    applyIf_of_not_truthy _ _ _ h4, applyIf_of_not_truthy _ _ _ h5,
    applyIf_of_not_truthy _ _ _ h6]

theorem filterBooks_of_noCriterion (l : List Book) (q : Query)
    (h : noCriterion q = true) : filterBooks l q = .ok l := by
  have h1 := (noCriterion_spec q h).1
  have hfr := filterRest_of_noCriterion l q h
  cases hq : q.genres with
  | none =>
    simp only [filterBooks, hq]
    rw [hfr]
  | some g =>
    rw [hq] at h1
    have hg0 : g = "" := by simpa [truthy] using h1
    simp only [filterBooks, hq]
    rw [if_pos hg0, hfr]

theorem mem_applyIf (o : Option String) (p : String → Book → Bool)
    (l : List Book) (b : Book) :
    b ∈ applyIf o p l ↔ b ∈ l ∧ guardOpt o p b = true := by
  cases o with
  | none => simp [applyIf, guardOpt]
  | some s =>
    by_cases hs : s = "" <;> simp [applyIf, guardOpt, hs, List.mem_filter]

theorem mem_filterRest (l : List Book) (q : Query) (b : Book) :
    b ∈ filterRest l q ↔ b ∈ l ∧ matchesRest q b = true := by
  simp only [filterRest, mem_applyIf, matchesRest, Bool.and_eq_true, and_assoc]

theorem filterRest_malformed (l : List Book) (q : Query)
    (hm : hasMalformedBound q) : filterRest l q = [] := by
  rcases hm with ⟨s, hq, hs, hp⟩ | ⟨s, hq, hs, hp⟩ | ⟨s, hq, hs, hp⟩ | ⟨s, hq, hs, hp⟩
  · have key : ∀ l' : List Book,
        applyIf q.priceBiggerThan (fun s b => geNaNQ b.price (parseIntStr s)) l' = [] := by
      intro l'
      rw [hq]
      simp only [applyIf, if_neg hs, hp, geNaNQ]
      exact List.filter_false l'
    simp only [filterRest]
    rw [key, applyIf_nil, applyIf_nil, applyIf_nil]
  · have key : ∀ l' : List Book,
        applyIf q.priceLessThan (fun s b => leNaNQ b.price (parseIntStr s)) l' = [] := by
      intro l'
      rw [hq]
      simp only [applyIf, if_neg hs, hp, leNaNQ]
      exact List.filter_false l'
    simp only [filterRest]
    rw [key, applyIf_nil, applyIf_nil]
  · have key : ∀ l' : List Book,
        applyIf q.yearBiggerThan (fun s b => geNaNZ b.year (parseIntStr s)) l' = [] := by
      intro l'
      rw [hq]
      simp only [applyIf, if_neg hs, hp, geNaNZ]
      exact List.filter_false l'
    simp only [filterRest]
    rw [key, applyIf_nil]
  · have key : ∀ l' : List Book,
        applyIf q.yearLessThan (fun s b => leNaNZ b.year (parseIntStr s)) l' = [] := by
      intro l'
      rw [hq]
      simp only [applyIf, if_neg hs, hp, leNaNZ]
      exact List.filter_false l'
    simp only [filterRest]
    rw [key]

theorem filterBooks_accepted (books : List Book) (q : Query)
    (hg : genresAccepted q) :
    ∃ l, filterBooks books q = .ok (filterRest l q) ∧ l.Sublist books := by
  cases hq : q.genres with
  | none =>
    refine ⟨books, ?_, List.Sublist.refl books⟩
    simp only [filterBooks, hq]
  | some g =>
    by_cases hge : g = ""
    · refine ⟨books, ?_, List.Sublist.refl books⟩
      simp only [filterBooks, hq]
      rw [if_pos hge]
    · refine ⟨List.filter (fun b => b.genres.any fun t => (splitComma g).contains t) books,
        ?_, List.filter_sublist books⟩
      simp only [filterBooks, hq]
      rw [if_neg hge, if_pos (hg g hq hge)]

/-! ### Claim theorems -/

/-- C1: `create` fails with `DuplicateTitle` when a case-insensitive
title match exists among live records; otherwise with `InvalidYear`
when the year is outside `[1940, 2100]`; otherwise with `InvalidPrice`
when `price ≤ 0`; otherwise it succeeds and returns the newly allocated
id.  The checks apply in exactly that order, so the first violated
precondition determines the error. -/
theorem create_validation_order (s : Store) (t a : String) (y : Int)
    (p : ℚ) (g : List String) :
    (s.books.any (fun b => lowerStr b.title == lowerStr t) = true →
      createBook s t a y p g = (.error .duplicateTitle, s)) ∧
    (s.books.any (fun b => lowerStr b.title == lowerStr t) = false →
      (y < 1940 ∨ 2100 < y) →
      createBook s t a y p g = (.error .invalidYear, s)) ∧
    (s.books.any (fun b => lowerStr b.title == lowerStr t) = false →
      1940 ≤ y → y ≤ 2100 → p ≤ 0 →
      createBook s t a y p g = (.error .invalidPrice, s)) ∧
    (s.books.any (fun b => lowerStr b.title == lowerStr t) = false →
      1940 ≤ y → y ≤ 2100 → 0 < p →
      (createBook s t a y p g).1 = .ok s.currentId) := by
  refine ⟨fun h1 => ?_, fun h1 h2 => ?_, fun h1 h2 h3 h4 => ?_, fun h1 h2 h3 h4 => ?_⟩
  · simp [createBook, h1]
  · have hy : (decide (y < 1940) || decide (2100 < y)) = true := by
      rcases h2 with h | h <;> simp [h]
    simp [createBook, h1, hy]
  · have hy : (decide (y < 1940) || decide (2100 < y)) = false := by
      simp only [Bool.or_eq_false_iff, decide_eq_false_iff_not, not_lt]
      exact ⟨h2, h3⟩
    simp [createBook, h1, hy, h4]
  · have hy : (decide (y < 1940) || decide (2100 < y)) = false := by
      simp only [Bool.or_eq_false_iff, decide_eq_false_iff_not, not_lt]
      exact ⟨h2, h3⟩
    simp [createBook, h1, hy, not_le.mpr h4]

/-- C1 witness: each of the four cases exercised at a concrete input. -/
theorem create_validation_order_witness :
    (createBook (createBook emptyStore "Dune" "H" 1965 30 ["SCI_FI"]).2
        "dune" "X" 1900 0 [] =
      (.error .duplicateTitle, (createBook emptyStore "Dune" "H" 1965 30 ["SCI_FI"]).2)) ∧
    (createBook emptyStore "A" "X" 1939 5 [] = (.error .invalidYear, emptyStore)) ∧
    (createBook emptyStore "A" "X" 2000 0 [] = (.error .invalidPrice, emptyStore)) ∧
    ((createBook emptyStore "A" "X" 2000 5 []).1 = .ok 1) :=
  ⟨(create_validation_order (createBook emptyStore "Dune" "H" 1965 30 ["SCI_FI"]).2
      "dune" "X" 1900 0 []).1 (by decide),
   (create_validation_order emptyStore "A" "X" 1939 5 []).2.1 (by decide)
     (Or.inl (by decide)),
   (create_validation_order emptyStore "A" "X" 2000 0 []).2.2.1 (by decide)
     (by decide) (by decide) (by decide),
   (create_validation_order emptyStore "A" "X" 2000 5 []).2.2.2 (by decide)
     (by decide) (by decide) (by decide)⟩

/-- C2 is refuted by the code: `updatePrice` accepts `newPrice = 1/2`
(the check only rejects `price ≤ 0`) but stores `parseInt(0.5) = 0`,
leaving a live record with price `0`, not strictly positive.  This
theorem evaluates the failing trace from the empty store. -/
theorem update_price_truncation_bug :
    ((updatePrice (createBook emptyStore "Dune" "H" 1965 30 ["SCI_FI"]).2
        1 (mkRat 1 2)).1 = .ok 30) ∧
    ((updatePrice (createBook emptyStore "Dune" "H" 1965 30 ["SCI_FI"]).2
        1 (mkRat 1 2)).2.books.map Book.price = [0]) ∧
    (∃ b ∈ (updatePrice (createBook emptyStore "Dune" "H" 1965 30 ["SCI_FI"]).2
        1 (mkRat 1 2)).2.books, b.price ≤ 0) := by
  refine ⟨by decide, by decide, by decide⟩

/-- C5: identifiers are strictly increasing and never reused.  If a
`create` succeeds returning id `n`, then after any sequence of
operations containing no successful `create` (deletions included), the
next successful `create` returns `n + 1`. -/
theorem ids_never_reused (s : Store) (t a t' a' : String) (y y' : Int)
    (p p' : ℚ) (g g' : List String) (ops : List Op) (n m : Nat)
    (h1 : (createBook s t a y p g).1 = .ok n)
    (h2 : anySuccessfulCreate (createBook s t a y p g).2 ops = false)
    (h3 : (createBook (applyOps (createBook s t a y p g).2 ops)
      t' a' y' p' g').1 = .ok m) :
    m = n + 1 := by
  obtain ⟨hn, hinc⟩ := createBook_ok_id s t a y p g n h1
  obtain ⟨hm, _⟩ := createBook_ok_id _ t' a' y' p' g' m h3
  rw [hm, applyOps_currentId ops _ h2, hinc, hn]

/-- C5 witness: create returns id 1, the book is deleted, and the next
create still returns id 2 = 1 + 1. -/
theorem ids_never_reused_witness :
    ((createBook emptyStore "A" "x" 2000 5 ["NOVEL"]).1 = .ok 1) ∧
    (anySuccessfulCreate (createBook emptyStore "A" "x" 2000 5 ["NOVEL"]).2
      [Op.del 1] = false) ∧
    ((createBook (applyOps (createBook emptyStore "A" "x" 2000 5 ["NOVEL"]).2
      [Op.del 1]) "B" "x" 2000 5 ["NOVEL"]).1 = .ok 2) ∧
    2 = 1 + 1 :=
  ⟨by decide, by decide, by decide,
    ids_never_reused emptyStore "A" "x" "B" "x" 2000 2000 5 5 ["NOVEL"] ["NOVEL"]
      [Op.del 1] 1 2 (by decide) (by decide) (by decide)⟩

/-- C7: every write is all-or-nothing.  Whenever `create`,
`updatePrice` or `delete` fails with a typed error, the store (record
collection and id counter) is exactly as before the call. -/
theorem writes_all_or_nothing (s : Store) (t a : String) (y : Int)
    (p p' : ℚ) (g : List String) (id id' : Nat) (e e' e'' : Err) :
    ((createBook s t a y p g).1 = .error e → (createBook s t a y p g).2 = s) ∧
    ((updatePrice s id p').1 = .error e' → (updatePrice s id p').2 = s) ∧
    ((deleteBook s id').1 = .error e'' → (deleteBook s id').2 = s) :=
  ⟨createBook_error_frame s t a y p g e,
   updatePrice_error_frame s id p' e',
   deleteBook_error_frame s id' e''⟩

/-- C7 witness: a duplicate-title create, a not-found price update and
a not-found delete all leave the store untouched. -/
theorem writes_all_or_nothing_witness :
    ((createBook (createBook emptyStore "Dune" "H" 1965 30 ["SCI_FI"]).2
        "DUNE" "X" 2000 5 []).2 = (createBook emptyStore "Dune" "H" 1965 30 ["SCI_FI"]).2) ∧
    ((updatePrice emptyStore 1 5).2 = emptyStore) ∧
    ((deleteBook emptyStore 1).2 = emptyStore) :=
  ⟨((writes_all_or_nothing (createBook emptyStore "Dune" "H" 1965 30 ["SCI_FI"]).2
      "DUNE" "X" 2000 5 5 [] 1 1 .duplicateTitle .notFound .notFound).1 (by decide)),
   ((writes_all_or_nothing emptyStore "DUNE" "X" 2000 5 5 [] 1 1
      .duplicateTitle .notFound .notFound).2.1 (by decide)),
   ((writes_all_or_nothing emptyStore "DUNE" "X" 2000 5 5 [] 1 1
      .duplicateTitle .notFound .notFound).2.2 (by decide))⟩

/-- C3 counterexample: with one stored book of price 30, the bound
`price-bigger-than = "abc"` is NOT treated as absent: the count drops
from 1 to 0 and the list from one element to none, because the `NaN`
comparison rejects every record. -/
theorem malformed_bound_not_absent_cx :
    ((getBooksTotal (createBook emptyStore "Dune" "H" 1965 30 ["SCI_FI"]).2
        { priceBiggerThan := some "abc" }).1 = .ok 0) ∧
    ((getBooksTotal (createBook emptyStore "Dune" "H" 1965 30 ["SCI_FI"]).2
        {}).1 = .ok 1) ∧
    ((getBooks (createBook emptyStore "Dune" "H" 1965 30 ["SCI_FI"]).2
        { priceBiggerThan := some "abc" }).1 = .ok []) ∧
    ((getBooks (createBook emptyStore "Dune" "H" 1965 30 ["SCI_FI"]).2
        {}).1 ≠ .ok []) := by
  refine ⟨by decide, by decide, by decide, by decide⟩

/-- C3 amended: a malformed (non-numeric, non-empty) numeric-bound
string raises no error, but instead of being ignored it makes the bound
comparison `false` for every record, so the filtered list is empty and
the filtered count is 0 (whenever the genres criterion is accepted);
only an absent or empty-string bound is skipped. -/
theorem malformed_bound_empties_result (s : Store) (q : Query)
    (hg : genresAccepted q) (hm : hasMalformedBound q) :
    (getBooksTotal s q).1 = .ok 0 ∧ (getBooks s q).1 = .ok [] := by
  obtain ⟨l, hfb, _⟩ := filterBooks_accepted s.books q hg
  have hempty : filterRest l q = [] := filterRest_malformed l q hm
  rw [hempty] at hfb
  constructor
  · simp [getBooksTotal, hfb]
  · simp [getBooks, hfb, sortBooks]

/-- C3 amended witness: evaluated at one stored book and the bound
`price-bigger-than = "abc"`. -/
theorem malformed_bound_empties_result_witness :
    hasMalformedBound ({ priceBiggerThan := some "abc" } : Query) ∧
    ((getBooksTotal (createBook emptyStore "Dune" "H" 1965 30 ["SCI_FI"]).2
        { priceBiggerThan := some "abc" }).1 = .ok 0 ∧
     (getBooks (createBook emptyStore "Dune" "H" 1965 30 ["SCI_FI"]).2
        { priceBiggerThan := some "abc" }).1 = .ok []) :=
  ⟨Or.inl ⟨"abc", rfl, by decide, by decide⟩,
   malformed_bound_empties_result
     (createBook emptyStore "Dune" "H" 1965 30 ["SCI_FI"]).2
     { priceBiggerThan := some "abc" }
     (fun g hgx _ => absurd hgx (by simp))
     (Or.inl ⟨"abc", rfl, by decide, by decide⟩)⟩

/-- C4 counterexample: with books inserted as "b" then "a" and an
empty criteria set, the list query sorts the aliased global array in
place, so the store after the query differs from the store before it
(insertion order "b","a" became "a","b"). -/
theorem filtered_list_mutates_store_cx :
    ((getBooks (createBook (createBook emptyStore "b" "x" 2000 5 ["NOVEL"]).2
        "a" "x" 2000 5 ["NOVEL"]).2 {}).2
      ≠ (createBook (createBook emptyStore "b" "x" 2000 5 ["NOVEL"]).2
        "a" "x" 2000 5 ["NOVEL"]).2) ∧
    ((createBook (createBook emptyStore "b" "x" 2000 5 ["NOVEL"]).2
        "a" "x" 2000 5 ["NOVEL"]).2.books.map Book.title = ["b", "a"]) ∧
    ((getBooks (createBook (createBook emptyStore "b" "x" 2000 5 ["NOVEL"]).2
        "a" "x" 2000 5 ["NOVEL"]).2 {}).2.books.map Book.title = ["a", "b"]) := by
  refine ⟨by decide, by decide, by decide⟩

/-- C4 amended: the count query always leaves the store unchanged; the
list query leaves it unchanged whenever at least one criterion is
supplied, and in every case it preserves the id counter and the
multiset of live records — but with no criteria supplied it reorders
the stored records in place (case-insensitive title order). -/
theorem query_store_effect (s : Store) (q : Query) :
    ((getBooksTotal s q).2 = s) ∧
    (noCriterion q = false → (getBooks s q).2 = s) ∧
    ((getBooks s q).2.currentId = s.currentId) ∧
    ((getBooks s q).2.books.Perm s.books) := by
  refine ⟨getBooksTotal_frame s q, ?_, getBooks_currentId s q, ?_⟩
  · intro h
    simp only [getBooks]
    cases hf : filterBooks s.books q
    · rfl
    · simp [h]
  · simp only [getBooks]
    cases hf : filterBooks s.books q
    · exact List.Perm.refl _
    · by_cases hnc : noCriterion q = true
      · have hok := filterBooks_of_noCriterion s.books q hnc
        rw [hf] at hok
        have hl := Except.ok.inj hok
        simp only [hnc, if_true]
        rw [hl]
        exact List.perm_insertionSort titleLeP s.books
      · simp only [Bool.not_eq_true] at hnc
        simp [hnc]

/-- C4 amended witness: evaluated with one stored book, for an empty
criteria set (count query) and for an author criterion (list query). -/
theorem query_store_effect_witness :
    ((getBooksTotal (createBook emptyStore "b" "x" 2000 5 ["NOVEL"]).2 {}).2
        = (createBook emptyStore "b" "x" 2000 5 ["NOVEL"]).2) ∧
    (noCriterion ({ author := some "x" } : Query) = false) ∧
    ((getBooks (createBook emptyStore "b" "x" 2000 5 ["NOVEL"]).2
        { author := some "x" }).2
        = (createBook emptyStore "b" "x" 2000 5 ["NOVEL"]).2) :=
  ⟨(query_store_effect (createBook emptyStore "b" "x" 2000 5 ["NOVEL"]).2 {}).1,
   by decide,
   (query_store_effect (createBook emptyStore "b" "x" 2000 5 ["NOVEL"]).2
      { author := some "x" }).2.1 (by decide)⟩

/-- C9 counterexample: `create` accepts a genres list containing a tag
outside the catalog, and also an empty genres list, storing them
verbatim; so not every live record has a non-empty genre set drawn
from the catalog. -/
theorem create_no_genre_validation_cx :
    ((createBook emptyStore "T" "A" 2000 5 ["FAKE"]).1 = .ok 1) ∧
    ((createBook emptyStore "T" "A" 2000 5 ["FAKE"]).2.books.map Book.genres
        = [["FAKE"]]) ∧
    (validGenres.contains "FAKE" = false) ∧
    ((createBook emptyStore "T2" "A" 2000 5 []).1 = .ok 1) ∧
    ((createBook emptyStore "T2" "A" 2000 5 []).2.books.map Book.genres = [[]]) := by
  refine ⟨by decide, by decide, by decide, by decide, by decide⟩

/-- C9 amended: `create` performs no validation of genres whatsoever:
for any genres list `g` (empty or with unrecognized tags), once the
title, year and price checks pass, the record is appended with genres
exactly `g`.  The catalog is only enforced by the genres filter
criterion of the query engine. -/
theorem create_stores_genres_verbatim (s : Store) (t a : String) (y : Int)
    (p : ℚ) (g : List String)
    (h1 : s.books.any (fun b => lowerStr b.title == lowerStr t) = false)
    (h2 : 1940 ≤ y) (h3 : y ≤ 2100) (h4 : 0 < p) :
    createBook s t a y p g =
      (.ok s.currentId,
        { books := s.books ++
            [{ id := s.currentId, title := t, author := a, year := y,
               price := p, genres := g }],
          currentId := s.currentId + 1 }) := by
  have hy : (decide (y < 1940) || decide (2100 < y)) = false := by
    simp only [Bool.or_eq_false_iff, decide_eq_false_iff_not, not_lt]
    exact ⟨h2, h3⟩
  simp [createBook, h1, hy, not_le.mpr h4]

/-- C9 amended witness: the unrecognized tag list `["FAKE"]` is stored
verbatim. -/
theorem create_stores_genres_verbatim_witness :
    createBook emptyStore "T" "A" 2000 5 ["FAKE"] =
      (.ok 1,
        { books := [{ id := 1, title := "T", author := "A", year := 2000,
                      price := 5, genres := ["FAKE"] }],
          currentId := 2 }) := by
  have h := create_stores_genres_verbatim emptyStore "T" "A" 2000 5 ["FAKE"]
    (by decide) (by decide) (by decide) (by decide)
  simpa using h

/-- C10: whenever both query entry points accept the criteria, the
count returned by the total endpoint equals the length of the list
returned by the list endpoint on the same snapshot. -/
theorem count_matches_list_length (s : Store) (q : Query) (n : Nat)
    (l : List BookView)
    (h1 : (getBooksTotal s q).1 = .ok n)
    (h2 : (getBooks s q).1 = .ok l) :
    n = l.length := by
  cases hf : filterBooks s.books q with
  | error e => simp [getBooksTotal, hf] at h1
  | ok fl =>
    simp [getBooksTotal, hf] at h1
    simp [getBooks, hf] at h2
    subst h2
    simp [sortBooks, List.length_insertionSort, h1]

/-- C10 witness: with one stored book and empty criteria, the count is
1 and the list has length 1. -/
theorem count_matches_list_length_witness :
    ((getBooksTotal (createBook emptyStore "Dune" "H" 1965 30 ["SCI_FI"]).2
        {}).1 = .ok 1) ∧
    ((getBooks (createBook emptyStore "Dune" "H" 1965 30 ["SCI_FI"]).2
        {}).1 = .ok [⟨1, "Dune", "H", 30, 1965, ["SCI_FI"]⟩]) ∧
    1 = ([(⟨1, "Dune", "H", 30, 1965, ["SCI_FI"]⟩ : BookView)]).length :=
  ⟨by decide, by decide,
   count_matches_list_length (createBook emptyStore "Dune" "H" 1965 30 ["SCI_FI"]).2
     {} 1 [⟨1, "Dune", "H", 30, 1965, ["SCI_FI"]⟩] (by decide) (by decide)⟩

/-- C6: with a genres criterion present, the list query fails with
`InvalidGenre` when some tag is outside the catalog; otherwise it
returns exactly the public views of the records whose genre set
intersects the requested tag list (OR within the criterion, AND with
the remaining criteria), sorted case-insensitively by title. -/
theorem genres_filter_semantics (s : Store) (q : Query) (g : String)
    (hg : q.genres = some g) (hne : g ≠ "") :
    (((splitComma g).all (fun t => validGenres.contains t) = false) →
      getBooks s q = (.error .invalidGenre, s)) ∧
    (((splitComma g).all (fun t => validGenres.contains t) = true) →
      ∃ l, (getBooks s q).1 = .ok l ∧
        (∀ v, v ∈ l ↔ ∃ b, b ∈ s.books ∧
          b.genres.any (fun t => (splitComma g).contains t) = true ∧
          matchesRest q b = true ∧ v = view b) ∧
        l.Pairwise (fun x y =>
          charListLe (lowerStr x.title).data (lowerStr y.title).data = true)) := by
  constructor
  · intro hbad
    have hfb : filterBooks s.books q = .error .invalidGenre := by
      simp only [filterBooks, hg]
      rw [if_neg hne, if_neg]
      simpa using hbad
    simp [getBooks, hfb]
  · intro hok
    have hfb : filterBooks s.books q =
        .ok (filterRest (s.books.filter
          (fun b => b.genres.any fun t => (splitComma g).contains t)) q) := by
      simp only [filterBooks, hg]
      rw [if_neg hne, if_pos hok]
    refine ⟨(sortBooks (filterRest (s.books.filter
        (fun b => b.genres.any fun t => (splitComma g).contains t)) q)).map view,
      by simp [getBooks, hfb], ?_, ?_⟩
    · intro v
      constructor
      · intro hv
        rw [List.mem_map] at hv
        obtain ⟨b, hb, rfl⟩ := hv
        rw [sortBooks, List.mem_insertionSort, mem_filterRest, List.mem_filter] at hb
        exact ⟨b, hb.1.1, hb.1.2, hb.2, rfl⟩
      · rintro ⟨b, hb1, hb2, hb3, rfl⟩
        rw [List.mem_map]
        refine ⟨b, ?_, rfl⟩
        rw [sortBooks, List.mem_insertionSort, mem_filterRest, List.mem_filter]
        exact ⟨⟨hb1, hb2⟩, hb3⟩
    · exact List.Pairwise.map view (fun a b h => h)
        (List.sorted_insertionSort titleLeP _)

/-- C6 witness: an unrecognized tag fails with `InvalidGenre`; the tag
list "SCI_FI,NOVEL" returns the intersecting records, sorted. -/
theorem genres_filter_semantics_witness :
    (getBooks (createBook emptyStore "Dune" "H" 1965 30 ["SCI_FI"]).2
        { genres := some "NOT_REAL" }
      = (.error .invalidGenre, (createBook emptyStore "Dune" "H" 1965 30 ["SCI_FI"]).2)) ∧
    (∃ l, (getBooks (createBook emptyStore "Dune" "H" 1965 30 ["SCI_FI"]).2
        { genres := some "SCI_FI,NOVEL" }).1 = .ok l ∧
      (∀ v, v ∈ l ↔ ∃ b, b ∈ (createBook emptyStore "Dune" "H" 1965 30 ["SCI_FI"]).2.books ∧
        b.genres.any (fun t => (splitComma "SCI_FI,NOVEL").contains t) = true ∧
        matchesRest { genres := some "SCI_FI,NOVEL" } b = true ∧ v = view b) ∧
      l.Pairwise (fun x y =>
        charListLe (lowerStr x.title).data (lowerStr y.title).data = true)) :=
  ⟨(genres_filter_semantics (createBook emptyStore "Dune" "H" 1965 30 ["SCI_FI"]).2
      { genres := some "NOT_REAL" } "NOT_REAL" rfl (by decide)).1 (by decide),
   (genres_filter_semantics (createBook emptyStore "Dune" "H" 1965 30 ["SCI_FI"]).2
      { genres := some "SCI_FI,NOVEL" } "SCI_FI,NOVEL" rfl (by decide)).2 (by decide)⟩

/-- C8: `setLevel` fails with `UnknownChannel` unless the channel is
exactly "request-logger" or "books-logger" (and then leaves the state
unchanged), fails with `InvalidSeverity` unless the level is
case-insensitively one of error/warn/info/http/debug (state unchanged),
and on success an immediately following `getLevel` on the same channel
returns the severity just set; `getLevel` also fails with
`UnknownChannel` for any other name, and it never writes the state. -/
theorem log_level_registry (st : LogState) (c l : String) :
    ((c ≠ "request-logger" ∧ c ≠ "books-logger") →
      setLevel st c l = (.error .unknownChannel, st) ∧
      getLevel st c = .error .unknownChannel) ∧
    ((c = "request-logger" ∨ c = "books-logger") →
      validLevels.contains (lowerStr l) = false →
      setLevel st c l = (.error .invalidSeverity, st)) ∧
    (∀ r st', setLevel st c l = (.ok r, st') → getLevel st' c = .ok r) := by
  refine ⟨fun hc => ?_, fun hc hv => ?_, fun r st' h => ?_⟩
  · exact ⟨by simp [setLevel, hc.1, hc.2], by simp [getLevel, hc.1, hc.2]⟩
  · have hv' : lowerStr l ∉ validLevels := by simpa using hv
    rcases hc with rfl | rfl <;> simp [setLevel, hv']
  · simp only [setLevel] at h
    split_ifs at h with hc1 hv1 hc2 hv2
    · simp only [Prod.mk.injEq, Except.ok.injEq] at h
      obtain ⟨hr, hst⟩ := h
      subst hst
      simp [getLevel, hc1, hr]
    · exact absurd h (by simp)
    · simp only [Prod.mk.injEq, Except.ok.injEq] at h
      obtain ⟨hr, hst⟩ := h
      subst hst
      simp [getLevel, hc1, hc2, hr]
    · exact absurd h (by simp)
    · exact absurd h (by simp)

/-- C8 witness: unknown channel, invalid severity, and a successful
set followed by a get that answers the severity just set. -/
theorem log_level_registry_witness :
    (setLevel initLogState "nope" "info" = (.error .unknownChannel, initLogState)) ∧
    (getLevel initLogState "nope" = .error .unknownChannel) ∧
    (setLevel initLogState "books-logger" "verbose" = (.error .invalidSeverity, initLogState)) ∧
    (getLevel (setLevel initLogState "books-logger" "DEBUG").2 "books-logger" = .ok "DEBUG") :=
  ⟨((log_level_registry initLogState "nope" "info").1 (by decide)).1,
   ((log_level_registry initLogState "nope" "info").1 (by decide)).2,
   (log_level_registry initLogState "books-logger" "verbose").2.1
     (Or.inr rfl) (by decide),
   (log_level_registry initLogState "books-logger" "DEBUG").2.2 "DEBUG"
     (setLevel initLogState "books-logger" "DEBUG").2 (by decide)⟩

end BookServer
